import Mathlib

/-!
Verification of the Achora session-state and human-handoff orchestrator.

This file shallowly embeds the session/handoff core of the service:
`SessionService` and `RedisService` state handling, the `HandoffService`
eligibility analysis, the `SlackService` agent-assignment coordinator
(request / accept / end / timeout paths) and the `ChatController` routes
for callback requests and lead capture.

Modelling conventions:
* JavaScript `Map`s and Redis hashes become association lists over
  decidable key types; insertion overwrites the existing binding.
* `Date.now()` becomes an explicit `now : Nat` argument (milliseconds).
* Calls to external collaborators (Slack message posting and updating,
  the OpenAI responder, the PostgreSQL logger, WebSocket emits) are I/O
  with no effect on the orchestrator state; they are modelled only where
  a claim observes them (the count of published Slack request messages).
  The OpenAI handoff analysis and the conversation summariser are
  modelled as oracle parameters.
* Redis TTLs are passed through but time-based eviction is not modelled;
  record presence in the store stands for "present and not yet expired".
* JavaScript truthiness on strings ("" is falsy) is modelled explicitly.
-/

namespace Achora

/-- Association-list lookup (models `Map.get` / Redis key reads). -/
def alookup {κ α : Type} [DecidableEq κ] (k : κ) : List (κ × α) → Option α
  | [] => none
  | (j, v) :: rest => if j = k then some v else alookup k rest

/-- Association-list insert-or-overwrite (models `Map.set` / Redis writes). -/
def ainsert {κ α : Type} [DecidableEq κ] (k : κ) (v : α) : List (κ × α) → List (κ × α)
  | [] => [(k, v)]
  | (j, w) :: rest => if j = k then (k, v) :: rest else (j, w) :: ainsert k v rest

/-- Association-list removal (models `Map.delete` / Redis `del`). -/
def aerase {κ α : Type} [DecidableEq κ] (k : κ) : List (κ × α) → List (κ × α)
  | [] => []
  | (j, w) :: rest => if j = k then aerase k rest else (j, w) :: aerase k rest

/-- JavaScript truthiness of a possibly-absent string. -/
def truthy : Option String → Bool
  | none => false
  | some s => s ≠ ""

/- `src/src/services/states.js`: the five session-state string values. -/
namespace SessionState

def SEEKING_HANDOFF : String := "seeking_handoff"

def CALLBACK_REQUEST : String := "callback_request"

def LEAD_CAPTURE : String := "lead_capture"

def NORMAL_CHAT : String := "normal_chat"

def HUMAN_CONNECTED : String := "human_connected"

end SessionState

/-- `Object.values(SessionState)` as used by `setSessionState`. -/
def validStates : List String :=
  [SessionState.SEEKING_HANDOFF, SessionState.CALLBACK_REQUEST,
   SessionState.LEAD_CAPTURE, SessionState.NORMAL_CHAT,
   SessionState.HUMAN_CONNECTED]

/-- One conversation message, as carried in handoff conversation history. -/
structure ChatMsg where
  sender : String
  message : String
deriving DecidableEq, Repr

/-- A session record held by `SessionService` (in-memory map and the
`session_state:{persistentUserId}` Redis key). The `persistentUserId`
field is written by `getSessionState` when an agent connection exists. -/
structure SessionRec where
  state : String
  lastActivity : Nat
  handoffOffered : Bool
  lastHandoffTime : Option Nat
  persistentUserId : Option String := none
deriving DecidableEq, Repr

/-- An `ActiveAgentConnection` record (the `activeSessions` Redis hash,
keyed by persistent user id). -/
structure ActiveRec where
  agentId : String
  agentName : String
  threadTs : String
  originalMessageTs : String
  connectedAt : Nat
  persistentUserId : String
  currentSessionId : String
deriving DecidableEq, Repr

/-- A pending handoff request (the `handoff:{persistentUserId}` Redis key). -/
structure HandoffRec where
  sessionId : String
  messageTs : String
  requestTime : Nat
  conversationHistory : List ChatMsg := []
  summary : Option String := none
deriving DecidableEq, Repr

/-- The `user:{persistentUserId}` Redis hash; fields are optional because
`hSet` merges fields into the hash. -/
structure UserRec where
  agentConnected : Option String := none
  agentName : Option String := none
  agentId : Option String := none
  connectedAt : Option String := none
  currentSessionId : Option String := none
deriving DecidableEq, Repr

/-- An entry of `SlackService.waitingSessions` (keyed by session id). -/
structure WaitingRec where
  messageTs : String
  requestTime : Nat
  persistentUserId : Option String
deriving DecidableEq, Repr

/-- A captured lead assembled by `ChatController.handleLeadCapture`. -/
structure LeadData where
  name : String
  firstName : String
  lastName : String
  email : String
  phone : String
  source : String
  clientId : String
  sessionId : String
deriving DecidableEq, Repr

/-- The orchestrator state: the `SessionService` in-memory session map,
the Redis-held records, and the `SlackService` timer registries.
Timer registries map an owner key to a fresh timer identifier drawn from
`nextTimerId`, so that restarting a timer is distinguishable from
keeping it. `slackRequestPosts` counts `chat.postMessage` publications
of new support requests, and `nextTs` generates their Slack timestamps. -/
structure Sys where
  redisConnected : Bool
  sessions : List (String × SessionRec) := []
  sessionStateStore : List (String × SessionRec) := []
  activeSessions : List (String × ActiveRec) := []
  handoffStates : List (String × HandoffRec) := []
  userStates : List (String × UserRec) := []
  sessionMappings : List (String × String) := []
  timerStarts : List (String × Nat) := []
  handoffTimeouts : List (String × Nat) := []
  updateIntervals : List (Option String × Nat) := []
  userInactivityTimeouts : List (String × Nat) := []
  sessionDurationIntervals : List (String × Nat) := []
  waitingSessions : List (String × WaitingRec) := []
  sessionConversationHistory : List (String × List ChatMsg) := []
  connectionRequestTimes : List (String × Nat) := []
  cachedSummaries : List (String × String) := []
  slackRequestPosts : List (String × String) := []
  nextTimerId : Nat := 0
  nextTs : Nat := 0
deriving DecidableEq, Repr

/-! ## RedisService (`src/unnamed/part_004`, lines 169-624) -/

/-- `RedisService.getActiveSession`: read the `activeSessions` hash entry
(whose TTL key existence is folded into record presence). -/
def getActiveSession (sys : Sys) (uid : String) : Option ActiveRec :=
  if sys.redisConnected then alookup uid sys.activeSessions else none

/-- `RedisService.setActiveSession`: an unconditional `hSet` of the
`activeSessions` hash entry plus its TTL key (lines 447-460). Note this
is an overwrite, not a compare-and-set. -/
def setActiveSession (sys : Sys) (uid : String) (rec : ActiveRec) (_ttl : Nat) : Sys :=
  if sys.redisConnected then
    { sys with activeSessions := ainsert uid rec sys.activeSessions }
  else sys

/-- `RedisService.deleteActiveSession`. -/
def deleteActiveSession (sys : Sys) (uid : String) : Sys :=
  if sys.redisConnected then
    { sys with activeSessions := aerase uid sys.activeSessions }
  else sys

/-- `RedisService.updateActiveSessionId`: re-point an existing active
session at a new current session id. -/
def updateActiveSessionId (sys : Sys) (uid : String) (newSessionId : String) : Sys :=
  if sys.redisConnected then
    match getActiveSession sys uid with
    | some rec => setActiveSession sys uid { rec with currentSessionId := newSessionId } 3600
    | none => sys
  else sys

/-- `RedisService.getHandoffState`. -/
def getHandoffState (sys : Sys) (uid : String) : Option HandoffRec :=
  if sys.redisConnected then alookup uid sys.handoffStates else none

/-- `RedisService.setHandoffState` (`setEx` with a TTL that is not
modelled beyond record presence). -/
def setHandoffState (sys : Sys) (uid : String) (rec : HandoffRec) (_ttl : Nat) : Sys :=
  if sys.redisConnected then
    { sys with handoffStates := ainsert uid rec sys.handoffStates }
  else sys

/-- `RedisService.deleteHandoffState`. -/
def deleteHandoffState (sys : Sys) (uid : String) : Sys :=
  if sys.redisConnected then
    { sys with handoffStates := aerase uid sys.handoffStates }
  else sys

/-- `RedisService.setTimerStart`. -/
def setTimerStart (sys : Sys) (uid : String) (startTime : Nat) : Sys :=
  if sys.redisConnected then
    { sys with timerStarts := ainsert uid startTime sys.timerStarts }
  else sys

/-- `RedisService.deleteTimer`. -/
def deleteTimer (sys : Sys) (uid : String) : Sys :=
  if sys.redisConnected then
    { sys with timerStarts := aerase uid sys.timerStarts }
  else sys

/-- `RedisService.getUserState` (`hGetAll`; an absent hash reads as `none`). -/
def getUserState (sys : Sys) (uid : String) : Option UserRec :=
  if sys.redisConnected then alookup uid sys.userStates else none

/-- `RedisService.setUserState` as invoked from `handleAcceptButton`:
`hSet` of the five agent-connection fields. -/
def setUserState (sys : Sys) (uid : String) (rec : UserRec) : Sys :=
  if sys.redisConnected then
    { sys with userStates := ainsert uid rec sys.userStates }
  else sys

/-- `RedisService.updateUserField` specialised to `currentSessionId`
(`RedisService.updateCurrentSession`): an `hSet` of a single field,
merging into the existing hash. -/
def updateCurrentSession (sys : Sys) (uid : String) (newSessionId : String) : Sys :=
  if sys.redisConnected then
    let old := (alookup uid sys.userStates).getD {}
    { sys with userStates := ainsert uid { old with currentSessionId := some newSessionId } sys.userStates }
  else sys

/-- `RedisService.setSessionMapping`: `session:{sessionId} -> persistentUserId`. -/
def setSessionMapping (sys : Sys) (sessionId : String) (uid : String) (_ttl : Nat) : Sys :=
  if sys.redisConnected then
    { sys with sessionMappings := ainsert sessionId uid sys.sessionMappings }
  else sys

/-- `RedisService.getSessionMapping`. -/
def getSessionMapping (sys : Sys) (sessionId : String) : Option String :=
  if sys.redisConnected then alookup sessionId sys.sessionMappings else none

/-! ## SessionService (`src/unnamed/part_002`, lines 649-929) -/

/-- `SessionService.getSessionFromRedis`: read `session_state:{uid}`. -/
def getSessionFromRedis (sys : Sys) (uid : String) : Option SessionRec :=
  if sys.redisConnected then alookup uid sys.sessionStateStore else none

/-- `SessionService.saveSessionToRedis`: write `session_state:{uid}`
with a one-hour TTL. -/
def saveSessionToRedis (sys : Sys) (uid : String) (rec : SessionRec) : Sys :=
  if sys.redisConnected then
    { sys with sessionStateStore := ainsert uid rec sys.sessionStateStore }
  else sys

/-- The default session record created on first contact. -/
def defaultSession (now : Nat) : SessionRec :=
  { state := SessionState.SEEKING_HANDOFF
    lastActivity := now
    handoffOffered := false
    lastHandoffTime := none }

/-- `SessionService.getSession`: Redis first when a persistent user id is
known, else the in-memory map, creating a default record if absent.
The returned record is the object aliased by the in-memory map, so
callers that mutate it are modelled as writing back to `sessions`. -/
def getSession (sys : Sys) (sessionId : String) (uid : Option String) (now : Nat) :
    Sys × SessionRec :=
  let fallback : Sys × SessionRec :=
    match alookup sessionId sys.sessions with
    | some s => (sys, s)
    | none =>
      let d := defaultSession now
      let sys1 := { sys with sessions := ainsert sessionId d sys.sessions }
      let sys2 :=
        match uid with
        | some u => if sys1.redisConnected then saveSessionToRedis sys1 u d else sys1
        | none => sys1
      (sys2, d)
  match uid with
  | some u =>
    if sys.redisConnected then
      match getSessionFromRedis sys u with
      | some redisSession =>
        ({ sys with sessions := ainsert sessionId redisSession sys.sessions }, redisSession)
      | none => fallback
    else fallback
  | none => fallback

/-- `SessionService.getSessionState`: if the persistent user has an
active agent connection, force and persist `HUMAN_CONNECTED`; otherwise
return the stored state. -/
def getSessionState (sys : Sys) (sessionId : String) (uid : Option String) (now : Nat) :
    Sys × String :=
  let regular : Sys × String :=
    let (sys1, s) := getSession sys sessionId uid now
    (sys1, s.state)
  match uid with
  | some u =>
    if sys.redisConnected then
      match getActiveSession sys u with
      | some _ =>
        let (sys1, session) := getSession sys sessionId uid now
        let session1 := { session with
          state := SessionState.HUMAN_CONNECTED, persistentUserId := some u }
        let sys2 := { sys1 with sessions := ainsert sessionId session1 sys1.sessions }
        let sys3 := saveSessionToRedis sys2 u session1
        (sys3, SessionState.HUMAN_CONNECTED)
      | none => regular
    else regular
  | none => regular

/-- `SessionService.setSessionState`: validates the new state against the
five known values; an unknown value is rejected with a logged error
(returned here as `some errorText`) and no state change. -/
def setSessionState (sys : Sys) (sessionId : String) (state : String)
    (uid : Option String) (now : Nat) : Sys × Option String :=
  if state ∈ validStates then
    let (sys1, _previousState) := getSessionState sys sessionId uid now
    let (sys2, sessionData) := getSession sys1 sessionId uid now
    let sessionData1 := { sessionData with state := state, lastActivity := now }
    let sys3 := { sys2 with sessions := ainsert sessionId sessionData1 sys2.sessions }
    let sys4 :=
      match uid with
      | some u => if sys3.redisConnected then saveSessionToRedis sys3 u sessionData1 else sys3
      | none => sys3
    (sys4, none)
  else
    (sys, some ("Invalid state: " ++ state))

/-- `SessionService.updateSessionActivity`. -/
def updateSessionActivity (sys : Sys) (sessionId : String) (uid : Option String)
    (now : Nat) : Sys :=
  let (sys1, session) := getSession sys sessionId uid now
  let session1 := { session with lastActivity := now }
  let sys2 := { sys1 with sessions := ainsert sessionId session1 sys1.sessions }
  match uid with
  | some u => if sys2.redisConnected then saveSessionToRedis sys2 u session1 else sys2
  | none => sys2

/-- `SessionService.hasHandoffBeenOffered`. -/
def hasHandoffBeenOffered (sys : Sys) (sessionId : String) (uid : Option String)
    (now : Nat) : Sys × Bool :=
  let (sys1, session) := getSession sys sessionId uid now
  (sys1, session.handoffOffered)

/-- `SessionService.markHandoffOffered`. -/
def markHandoffOffered (sys : Sys) (sessionId : String) (uid : Option String)
    (now : Nat) : Sys :=
  let (sys1, session) := getSession sys sessionId uid now
  let session1 := { session with handoffOffered := true }
  let sys2 := { sys1 with sessions := ainsert sessionId session1 sys1.sessions }
  match uid with
  | some u => if sys2.redisConnected then saveSessionToRedis sys2 u session1 else sys2
  | none => sys2

/-- The one-hour live-chat cooldown in milliseconds. -/
def oneHourMs : Int := 60 * 60 * 1000

/-- The pure core of `SessionService.canRequestHandoffAgain`: with no
previous live-chat handoff the request is allowed; otherwise at least
one hour must have passed since `lastHandoffTime`. -/
def cooldownElapsed (lastHandoffTime : Option Nat) (now : Nat) : Bool :=
  match lastHandoffTime with
  | none => true
  | some t => (now : Int) - (t : Int) ≥ oneHourMs

/-- `SessionService.canRequestHandoffAgain` (lines 855-878). -/
def canRequestHandoffAgain (sys : Sys) (sessionId : String) (uid : Option String)
    (now : Nat) : Sys × Bool :=
  let (sys1, session) := getSession sys sessionId uid now
  (sys1, cooldownElapsed session.lastHandoffTime now)

/-- `SessionService.markHumanHandoffDeclined`. -/
def markHumanHandoffDeclined (sys : Sys) (sessionId : String) (uid : Option String)
    (now : Nat) : Sys :=
  (setSessionState sys sessionId SessionState.LEAD_CAPTURE uid now).1

/-- `SessionService.markCallbackRequested` (lines 904-907): the separate,
direct transition used by callback requests. -/
def markCallbackRequested (sys : Sys) (sessionId : String) (uid : Option String)
    (now : Nat) : Sys :=
  (setSessionState sys sessionId SessionState.CALLBACK_REQUEST uid now).1

/-- `SessionService.markLeadCaptured` (lines 909-912). -/
def markLeadCaptured (sys : Sys) (sessionId : String) (uid : Option String)
    (now : Nat) : Sys :=
  (setSessionState sys sessionId SessionState.NORMAL_CHAT uid now).1

/-- `SessionService.markHumanHandoffAccepted` (lines 914-927): record the
live-chat handoff timestamp, persist it, then move to `NORMAL_CHAT`. -/
def markHumanHandoffAccepted (sys : Sys) (sessionId : String) (uid : Option String)
    (now : Nat) : Sys :=
  let (sys1, session) := getSession sys sessionId uid now
  let session1 := { session with lastHandoffTime := some now }
  let sys2 := { sys1 with sessions := ainsert sessionId session1 sys1.sessions }
  let sys3 :=
    match uid with
    | some u => if sys2.redisConnected then saveSessionToRedis sys2 u session1 else sys2
    | none => sys2
  (setSessionState sys3 sessionId SessionState.NORMAL_CHAT uid now).1

/-! ## HandoffService (`src/src/services/handoffService.js`) -/

/-- The decision returned by `analyzeResponseForHandoff`. -/
inductive HandoffAction where
  | continueAI (reason : String)
  | humanHandoff (reason : String)
deriving DecidableEq, Repr

/-- `HandoffService.analyzeResponseForHandoff` (lines 16-76).
The OpenAI conversation analysis (`analyzeConversationForHandoff`) is an
external call, modelled by the oracle pair `shouldOffer` / `offerReason`.
The state-based early returns, the `NORMAL_CHAT` cooldown check with its
reset to `SEEKING_HANDOFF`, and the already-offered check follow the
source order. -/
def analyzeResponseForHandoff (sys : Sys) (sessionId : String) (uid : Option String)
    (now : Nat) (shouldOffer : Bool) (offerReason : String) : Sys × HandoffAction :=
  let afterSwitch : Sys → Sys × HandoffAction := fun sysA =>
    let (sysB, offered) := hasHandoffBeenOffered sysA sessionId uid now
    if offered then
      (sysB, .continueAI "Human handoff already offered")
    else if shouldOffer then
      (sysB, .humanHandoff offerReason)
    else
      (sysB, .continueAI "No handoff triggers detected")
  let (sys1, currentState) := getSessionState sys sessionId uid now
  if currentState = SessionState.CALLBACK_REQUEST then
    (sys1, .continueAI "CALLBACK_REQUEST state - focusing on lead collection")
  else if currentState = SessionState.LEAD_CAPTURE then
    (sys1, .continueAI "LEAD_CAPTURE state - conversational lead capture mode")
  else if currentState = SessionState.HUMAN_CONNECTED then
    (sys1, .continueAI "HUMAN_CONNECTED state - agent handling conversation")
  else if currentState = SessionState.NORMAL_CHAT then
    let (sys2, canRequestHandoff) := canRequestHandoffAgain sys1 sessionId uid now
    if ¬canRequestHandoff then
      (sys2, .continueAI "NORMAL_CHAT state - handoff cooldown active")
    else
      let (sys3, _) := setSessionState sys2 sessionId SessionState.SEEKING_HANDOFF uid now
      afterSwitch sys3
  else if currentState = SessionState.SEEKING_HANDOFF then
    afterSwitch sys1
  else
    (sys1, .continueAI ("Unknown session state: " ++ currentState))

/-! ## SlackService timers (`src/unnamed/part_004`, lines 629-1100) -/

/-- `SlackService.clearHandoffTimeout` (lines 791-796). -/
def clearHandoffTimeout (sys : Sys) (uid : String) : Sys :=
  { sys with handoffTimeouts := aerase uid sys.handoffTimeouts }

/-- The registration half of `SlackService.setHandoffTimeout` (lines
672-788): cancel any existing handoff-timeout timer, then schedule a
fresh single-shot timer. The deferred callback body is modelled
separately as `handoffTimeoutFire`. -/
def setHandoffTimeout (sys : Sys) (uid : String) : Sys :=
  let sys1 := clearHandoffTimeout sys uid
  { sys1 with
    handoffTimeouts := ainsert uid sys1.nextTimerId sys1.handoffTimeouts
    nextTimerId := sys1.nextTimerId + 1 }

/-- `SlackService.clearUserInactivityTimeout` (lines 877-883). -/
def clearUserInactivityTimeout (sys : Sys) (uid : String) : Sys :=
  { sys with userInactivityTimeouts := aerase uid sys.userInactivityTimeouts }

/-- The registration half of `SlackService.setUserInactivityTimeout`. -/
def setUserInactivityTimeout (sys : Sys) (uid : String) : Sys :=
  let sys1 := clearUserInactivityTimeout sys uid
  { sys1 with
    userInactivityTimeouts := ainsert uid sys1.nextTimerId sys1.userInactivityTimeouts
    nextTimerId := sys1.nextTimerId + 1 }

/-- `SlackService.startWaitingTimeUpdater` (lines 931-1000): cancel the
existing per-user repeating interval, then start a fresh one. The
10-second Slack-message refresh it performs is external I/O. -/
def startWaitingTimeUpdater (sys : Sys) (uid : Option String) : Sys :=
  let sys1 := { sys with updateIntervals := aerase uid sys.updateIntervals }
  { sys1 with
    updateIntervals := ainsert uid sys1.nextTimerId sys1.updateIntervals
    nextTimerId := sys1.nextTimerId + 1 }

/-- `SlackService.stopWaitingTimeUpdater` (lines 1002-1010): cancel the
interval and clean up the Redis timer-start and handoff-state records. -/
def stopWaitingTimeUpdater (sys : Sys) (uid : String) : Sys :=
  let sys1 := { sys with updateIntervals := aerase (some uid) sys.updateIntervals }
  let sys2 := deleteTimer sys1 uid
  deleteHandoffState sys2 uid

/-- `SlackService.startSessionDurationUpdater` (lines 1026-1093): a no-op
when no active session exists; otherwise restart the per-user interval. -/
def startSessionDurationUpdater (sys : Sys) (uid : String) : Sys :=
  let sys1 := { sys with sessionDurationIntervals := aerase uid sys.sessionDurationIntervals }
  match getActiveSession sys1 uid with
  | none => sys1
  | some _ =>
    { sys1 with
      sessionDurationIntervals := ainsert uid sys1.nextTimerId sys1.sessionDurationIntervals
      nextTimerId := sys1.nextTimerId + 1 }

/-- `SlackService.stopSessionDurationUpdater` (lines 1095-1100). -/
def stopSessionDurationUpdater (sys : Sys) (key : String) : Sys :=
  { sys with sessionDurationIntervals := aerase key sys.sessionDurationIntervals }

/-- `SlackService.mapUserToSession` (lines 662-669). -/
def mapUserToSession (sys : Sys) (uid : String) (sessionId : String) : Sys :=
  let sys1 := updateCurrentSession sys uid sessionId
  let sys2 := setSessionMapping sys1 sessionId uid 86400
  updateActiveSessionId sys2 uid sessionId

/-- The deferred callback body of `SlackService.setHandoffTimeout`
(lines 676-785), run when the 10-minute handoff timer fires. It logs the
timeout, updates the Slack message when a handoff state still exists
(external I/O), then unconditionally resets the conversation state to
`SEEKING_HANDOFF`, notifies the visitor transport, and cleans up the
handoff state, the timer-start record, the waiting-time updater and the
timeout registration. Note: the body never re-checks whether the request
is still waiting before resetting state. -/
def handoffTimeoutFire (sys : Sys) (uid : String) (sessionId : String) (now : Nat) : Sys :=
  let _handoffState := getHandoffState sys uid
  let userState := getUserState sys uid
  let currentSessionId :=
    match userState with
    | some us => if truthy us.currentSessionId then us.currentSessionId.getD "" else sessionId
    | none => sessionId
  let sys1 :=
    if currentSessionId ≠ "" then
      (setSessionState sys currentSessionId SessionState.SEEKING_HANDOFF (some uid) now).1
    else sys
  let sys2 := deleteHandoffState sys1 uid
  let sys3 := deleteTimer sys2 uid
  let sys4 := stopWaitingTimeUpdater sys3 uid
  clearHandoffTimeout sys4 uid

/-! ## SlackService coordinator operations (`src/unnamed/part_004`) -/

/-- The status/message pair returned by `requestHumanAgent`. -/
structure ReqResult where
  status : String
  message : String
deriving DecidableEq, Repr

/-- `SlackService.requestHumanAgent` (lines 1102-1223). When a pending
handoff request already exists for the persistent user, its session
pointer is updated in place and a still-pending message is returned
without publishing to Slack or touching timers; otherwise a new request
is published, recorded, and the handoff-timeout timer and waiting-time
updater are started. The conversation summariser (an OpenAI call) is the
`summarize` oracle. -/
def requestHumanAgent (sys : Sys) (sessionId : String)
    (conversationHistory : List ChatMsg) (uid : Option String) (now : Nat)
    (summarize : List ChatMsg → String) : Sys × ReqResult :=
  let fresh : Sys → Sys × ReqResult := fun sysA =>
    let sysB := { sysA with
      sessionConversationHistory :=
        ainsert sessionId conversationHistory sysA.sessionConversationHistory
      connectionRequestTimes := ainsert sessionId now sysA.connectionRequestTimes }
    let summary : Option String :=
      if conversationHistory ≠ [] then some (summarize conversationHistory) else none
    let sysC :=
      match summary with
      | some s => { sysB with cachedSummaries := ainsert sessionId s sysB.cachedSummaries }
      | none => sysB
    let messageTs := "slack-ts-" ++ toString sysC.nextTs
    let sysD := { sysC with
      slackRequestPosts := sysC.slackRequestPosts ++ [(sessionId, messageTs)]
      nextTs := sysC.nextTs + 1 }
    let sysE := { sysD with
      waitingSessions := ainsert sessionId
        { messageTs := messageTs, requestTime := now, persistentUserId := uid }
        sysD.waitingSessions }
    let sysF :=
      match uid with
      | some u =>
        let sF1 := setHandoffState sysE u
          { sessionId := sessionId, messageTs := messageTs, requestTime := now
            conversationHistory := conversationHistory, summary := summary } 600
        let sF2 := setTimerStart sF1 u now
        setHandoffTimeout sF2 u
      | none => sysE
    let sysG := startWaitingTimeUpdater sysF uid
    (sysG, { status := "human_requested"
             message := "Human agent request sent to our team. Someone will be with you shortly!" })
  match uid with
  | some u =>
    let sys1 := mapUserToSession sys u sessionId
    match getHandoffState sys1 u with
    | some existingRequest =>
      let updated := { existingRequest with sessionId := sessionId }
      let sys2 := setHandoffState sys1 u updated 300
      (sys2, { status := "human_requested"
               message := "Your previous request for human assistance is still active. Someone will be with you shortly!" })
    | none => fresh sys1
  | none => fresh sys

/-- The identifier-resolution prologue of `handleAcceptButton` (lines
1336-1349): a button value may carry a persistent user id or a legacy
session id; resolve to a `(persistentUserId?, sessionId)` pair. -/
def resolveIdentifier (sys : Sys) (identifier : String) : Option String × String :=
  match getUserState sys identifier with
  | some userState =>
    if truthy userState.currentSessionId then
      (some identifier, userState.currentSessionId.getD "")
    else
      (getSessionMapping sys identifier, identifier)
  | none => (getSessionMapping sys identifier, identifier)

/-- The result returned by `handleAcceptButton`. -/
structure AcceptResult where
  status : String
  message : Option String := none
  threadTs : Option String := none
deriving DecidableEq, Repr

/-- `SlackService.handleAcceptButton` (lines 1332-1542): resolve the
identifier ("Session not found" when impossible); report already-taken,
naming the holding agent, when an active session record exists; else
create the `ActiveAgentConnection` with an unconditional overwrite
(`setActiveSession`), record the agent in the user state, stop the
waiting-time updater, clear the handoff state and timers, start the
duration updater and the inactivity timer, and record the accepted
handoff (`markHumanHandoffAccepted`). Slack message updates, database
logging and the WebSocket connect notification are external I/O. -/
def handleAcceptButton (sys : Sys) (identifier : String) (userId : String)
    (userName : String) (originalMessageTs : String) (now : Nat) : Sys × AcceptResult :=
  let (uidOpt, sessionId) := resolveIdentifier sys identifier
  if ¬truthy uidOpt ∨ sessionId = "" then
    (sys, { status := "error", message := some "Session not found" })
  else
    let u := uidOpt.getD ""
    match getActiveSession sys u with
    | some activeSession =>
      (sys, { status := "already_taken"
              message := some ("This chat is already being handled by " ++ activeSession.agentName) })
    | none =>
      let _cachedSummary := alookup sessionId sys.cachedSummaries
      let sys1 := { sys with
        sessionConversationHistory := aerase sessionId sys.sessionConversationHistory }
      let sessionData : ActiveRec :=
        { agentId := userId, agentName := userName, threadTs := originalMessageTs
          originalMessageTs := originalMessageTs, connectedAt := now
          persistentUserId := u, currentSessionId := sessionId }
      let sys2 := setActiveSession sys1 u sessionData 3600
      let sys3 := setUserState sys2 u
        { agentConnected := some "true", agentName := some userName
          agentId := some userId, connectedAt := some (toString now)
          currentSessionId := some sessionId }
      let sys4 := stopWaitingTimeUpdater sys3 u
      let sys5 := deleteHandoffState sys4 u
      let sys6 := clearHandoffTimeout sys5 u
      let sys7 := clearUserInactivityTimeout sys6 u
      let sys8 := startSessionDurationUpdater sys7 u
      let sys9 := markHumanHandoffAccepted sys8 sessionId (some u) now
      let sys10 := setUserInactivityTimeout sys9 u
      let _handoffState := getHandoffState sys10 u
      (sys10, { status := "accepted", threadTs := some originalMessageTs })

/-- The result returned by `handleEndChatButton`. -/
structure EndResult where
  status : String
  message : Option String := none
deriving DecidableEq, Repr

/-- `SlackService.handleEndChatButton` (lines 1707-1812): resolve the
identifier to an active session; "session_not_found" when none exists;
otherwise stop the duration updater, remove the active connection, clear
the inactivity timer and drop the cached summary. Slack updates, the
database disconnect log and the visitor-transport notification are
external I/O. The end path performs no session-state write and does not
touch `lastHandoffTime`. -/
def handleEndChatButton (sys : Sys) (identifier : String) (_userId : String)
    (_userName : String) (_messageTs : String) (_now : Nat) : Sys × EndResult :=
  let resolved : Option String × String × Option ActiveRec :=
    match getActiveSession sys identifier with
    | some session => (some identifier, session.currentSessionId, some session)
    | none =>
      let uidOpt := getSessionMapping sys identifier
      let session :=
        match uidOpt with
        | some u => if u ≠ "" then getActiveSession sys u else none
        | none => none
      (uidOpt, identifier, session)
  match resolved with
  | (_, _, none) =>
    (sys, { status := "session_not_found", message := some "Session not found or already ended" })
  | (uidOpt, sessionId, some session) =>
    let endKey :=
      if session.persistentUserId ≠ "" then session.persistentUserId else uidOpt.getD ""
    let sys1 := stopSessionDurationUpdater sys endKey
    let sys2 :=
      if endKey ≠ "" then
        clearUserInactivityTimeout (deleteActiveSession sys1 endKey) endKey
      else sys1
    let sys3 := { sys2 with cachedSummaries := aerase sessionId sys2.cachedSummaries }
    (sys3, { status := "ended" })

/-! ## JavaScript string primitives

Executable models of `String.prototype.split` (with a non-empty string
separator) and `String.prototype.trim`, written by structural recursion
over character lists so that concrete instances compute inside the
kernel. -/

/-- Does `cs` start with the (non-empty) separator `sep`? If so, return
the remainder after it. -/
def stripLeading : List Char → List Char → Option (List Char)
  | [], cs => some cs
  | _ :: _, [] => none
  | s :: ss, c :: cc => if c = s then stripLeading ss cc else none

/-- Fuel-indexed splitter; `fuel` bounds the number of characters
consumed, so structural recursion on it suffices. -/
def jsSplitAux (sep : List Char) : Nat → List Char → List (List Char)
  | _, [] => [[]]
  | 0, cs => [cs]
  | fuel + 1, c :: cs =>
    match stripLeading sep (c :: cs) with
    | some rest =>
      if sep.isEmpty then
        match jsSplitAux sep fuel cs with
        | [] => [[c]]
        | g :: gs => (c :: g) :: gs
      else
        [] :: jsSplitAux sep fuel rest
    | none =>
      match jsSplitAux sep fuel cs with
      | [] => [[c]]
      | g :: gs => (c :: g) :: gs

/-- JavaScript `s.split(sep)` for a non-empty string separator. -/
def jsSplit (s : String) (sep : String) : List String :=
  (jsSplitAux sep.data (s.data.length + 1) s.data).map String.mk

/-- JavaScript `s.trim()` (whitespace as recognised by
`Char.isWhitespace`; the common space/tab/newline cases agree with the
JavaScript definition). -/
def jsTrim (s : String) : String :=
  String.mk (((s.data.dropWhile Char.isWhitespace).reverse.dropWhile
    Char.isWhitespace).reverse)

/-! ## ChatController routes (`src/unnamed/part_005`) -/

/-- The state effect of the callback-request route of
`ChatController.handleChatMessage` (lines 187-243): read the current
state; transition to `CALLBACK_REQUEST` via `markCallbackRequested`
unless the state is `NORMAL_CHAT`, in which case the message is handled
by the responder with no state change. The returned flag reports whether
the transition happened. Database logging and response generation are
external I/O. -/
def callbackRequestRoute (sys : Sys) (sessionId : String) (uid : Option String)
    (now : Nat) : Sys × Bool :=
  let (sys1, currentState) := getSessionState sys sessionId uid now
  if currentState ≠ SessionState.NORMAL_CHAT then
    (markCallbackRequested sys1 sessionId uid now, true)
  else
    (sys1, false)

/-- JavaScript `botResponse.includes('LEAD_CAPTURED:')`. -/
def containsLeadMarker (s : String) : Bool :=
  (jsSplit s "LEAD_CAPTURED:").length ≥ 2

/-- The comma-separated, individually trimmed parts of the first line of
the payload following the lead marker (`handleLeadCapture` lines
531-533). -/
def leadParts (dataString : String) : List String :=
  (jsSplit (jsTrim ((jsSplit dataString "\n").headD "")) ",").map jsTrim

/-- `ChatController.handleLeadCapture` (lines 518-570): when the bot
response carries the `LEAD_CAPTURED:` marker, the first line after the
marker is split on commas and each part trimmed; fewer than four parts
yield `none` with no state change; otherwise the first four parts become
first name, last name, email and phone in order, the lead is saved
(database I/O) and `markLeadCaptured` transitions to `NORMAL_CHAT`. -/
def handleLeadCapture (sys : Sys) (sessionId : String) (botResponse : String)
    (uid : Option String) (now : Nat) : Sys × Option LeadData :=
  if ¬containsLeadMarker botResponse then
    (sys, none)
  else
    match (jsSplit botResponse "LEAD_CAPTURED:").get? 1 with
    | none => (sys, none)
    | some dataString =>
      if dataString = "" then
        (sys, none)
      else
        let parts := leadParts dataString
        if parts.length < 4 then
          (sys, none)
        else
          let firstName := parts.getD 0 ""
          let lastName := parts.getD 1 ""
          let email := parts.getD 2 ""
          let phone := parts.getD 3 ""
          let fullName := jsTrim (firstName ++ " " ++ lastName)
          let leadData : LeadData :=
            { name := fullName, firstName := firstName, lastName := lastName
              email := email, phone := phone, source := "chatbot"
              clientId := "achora", sessionId := sessionId }
          let sys1 := markLeadCaptured sys sessionId uid now
          (sys1, some leadData)

/-! ## Interleaving model of the claim race

`handleAcceptButton` performs exactly two atomic store operations on the
`activeSessions` record of the visitor being claimed: the `hGet` inside
`getActiveSession` (line 1360) and, when that read found nothing, the
unconditional `hSet` inside `setActiveSession` (line 1443). All its
other store accesses touch other keys. The race between agents clicking
accept for the same visitor is therefore modelled as the interleaving of
these two steps across tasks sharing the visitor's single connection
slot. -/

/-- The phase of one in-flight accept call: before the check, after the
check (carrying what the read observed), or finished with a status and,
for the already-taken outcome, the name of the holding agent. -/
inductive ClaimPhase where
  | ready
  | checked (found : Option ActiveRec)
  | finished (status : String) (byAgent : Option String)
deriving DecidableEq, Repr

/-- One agent's accept call racing for a visitor. -/
structure ClaimTask where
  agentId : String
  agentName : String
  sessionId : String
  messageTs : String
  phase : ClaimPhase := .ready
deriving DecidableEq, Repr

/-- One atomic step of an accept call against the visitor's connection
slot: the read (line 1360), then either the already-taken return (lines
1361-1382) or the unconditional overwrite that creates the connection
(lines 1429-1443). -/
def claimStep (uid : String) (now : Nat) (store : Option ActiveRec) (t : ClaimTask) :
    Option ActiveRec × ClaimTask :=
  match t.phase with
  | .ready => (store, { t with phase := .checked store })
  | .checked (some held) =>
    (store, { t with phase := .finished "already_taken" (some held.agentName) })
  | .checked none =>
    let conn : ActiveRec :=
      { agentId := t.agentId, agentName := t.agentName, threadTs := t.messageTs
        originalMessageTs := t.messageTs, connectedAt := now
        persistentUserId := uid, currentSessionId := t.sessionId }
    (some conn, { t with phase := .finished "accepted" none })
  | .finished _ _ => (store, t)

/-- Two accept calls racing for one visitor's connection slot. -/
structure RaceState where
  store : Option ActiveRec
  task0 : ClaimTask
  task1 : ClaimTask
deriving DecidableEq, Repr

/-- Run one scheduled step: `false` advances task 0, `true` task 1. -/
def raceStep (uid : String) (now : Nat) (s : RaceState) (pick : Bool) : RaceState :=
  if pick then
    let (store1, t1) := claimStep uid now s.store s.task1
    { s with store := store1, task1 := t1 }
  else
    let (store1, t0) := claimStep uid now s.store s.task0
    { s with store := store1, task0 := t0 }

/-- Run a whole schedule of interleaved steps. -/
def runRace (uid : String) (now : Nat) (sched : List Bool) (s : RaceState) : RaceState :=
  sched.foldl (raceStep uid now) s

/-! ## Concrete scenario states used by the theorems below -/

/-- A store holding a single visitor's session record: Redis is reachable,
`session_state:{u}` holds `sess`, and nothing else exists. -/
def oneUserSys (u : String) (sess : SessionRec) : Sys :=
  { redisConnected := true
    sessionStateStore := [(u, sess)] }

/-- A store as left by a completed `requestHumanAgent` call for visitor
`u` on session `sid`: the session record, the current-session user
state, the pending handoff request with its timer-start record, the
registered handoff timeout and waiting-time updater, and the waiting
session entry. -/
def waitingSys (u sid : String) (sess : SessionRec) (hrec : HandoffRec) : Sys :=
  { redisConnected := true
    sessionStateStore := [(u, sess)]
    userStates := [(u, { currentSessionId := some sid })]
    handoffStates := [(u, hrec)]
    timerStarts := [(u, hrec.requestTime)]
    handoffTimeouts := [(u, 0)]
    updateIntervals := [(some u, 1)]
    waitingSessions := [(sid, { messageTs := hrec.messageTs
                                requestTime := hrec.requestTime
                                persistentUserId := some u })]
    nextTimerId := 2 }

/-- The session record of a visitor one minute after a live handoff was
accepted at time 0: `NORMAL_CHAT` with `lastHandoffTime = 0`. -/
def justHandedOffSession : SessionRec :=
  { state := SessionState.NORMAL_CHAT
    lastActivity := 0
    handoffOffered := true
    lastHandoffTime := some 0 }

/-- An agent connection held by agent Alice for visitor `u1`. -/
def aliceConn : ActiveRec :=
  { agentId := "A1", agentName := "Alice", threadTs := "ts0"
    originalMessageTs := "ts0", connectedAt := 0
    persistentUserId := "u1", currentSessionId := "s1" }

/-- A store in which visitor `u1` was already claimed (an active
connection exists, the pending request is gone) but the handoff-timeout
timer is still scheduled: the state reached when the timer fires despite
the claim having landed first. -/
def claimedNoRequestSys : Sys :=
  { redisConnected := true
    sessionStateStore := [("u1", justHandedOffSession)]
    activeSessions := [("u1", aliceConn)]
    userStates := [("u1", { currentSessionId := some "s1" })]
    handoffTimeouts := [("u1", 0)]
    nextTimerId := 1 }

/-- A store in which visitor `u1` resolves (a user state with a current
session exists) but no pending handoff request is WAITING and no agent
is connected. -/
def resolvableNoRequestSys : Sys :=
  { redisConnected := true
    userStates := [("u1", { currentSessionId := some "s1" })] }

/-- A visitor in `SEEKING_HANDOFF` whose live-handoff cooldown is still
active (last live handoff at time 0). -/
def seekingWithCooldown : SessionRec :=
  { state := SessionState.SEEKING_HANDOFF
    lastActivity := 0
    handoffOffered := false
    lastHandoffTime := some 0 }

/-- A store holding one visitor's session record together with an active
agent connection for that visitor. -/
def connectedSys (u : String) (sess : SessionRec) (conn : ActiveRec) : Sys :=
  { redisConnected := true
    sessionStateStore := [(u, sess)]
    activeSessions := [(u, conn)] }

/-- A reachable store with nothing in it yet. -/
def emptyRedisSys : Sys :=
  { redisConnected := true }

/-- Scenario composition: from a waiting visitor, an agent accepts at
`t1` and the same agent ends the chat at `t2`. -/
def acceptThenEnd (u sid aid aname ts : String) (sess : SessionRec)
    (hrec : HandoffRec) (t1 t2 : Nat) : Sys × EndResult :=
  handleEndChatButton
    (handleAcceptButton (waitingSys u sid sess hrec) u aid aname ts t1).1
    u aid aname ts t2

/-- Two accept calls by agents Alice and Bob racing for visitor `u1`,
both still to run, against an empty connection slot. -/
def twoAgentRace : RaceState :=
  { store := none
    task0 := { agentId := "A1", agentName := "Alice", sessionId := "s1", messageTs := "m1" }
    task1 := { agentId := "A2", agentName := "Bob", sessionId := "s1", messageTs := "m2" } }

/-! ## Association-list lemmas -/

@[simp] theorem alookup_nil {κ α : Type} [DecidableEq κ] (k : κ) :
    alookup (α := α) k [] = none := rfl

@[simp] theorem alookup_cons {κ α : Type} [DecidableEq κ] (k j : κ) (v : α)
    (l : List (κ × α)) :
    alookup k ((j, v) :: l) = if j = k then some v else alookup k l := rfl

@[simp] theorem ainsert_nil {κ α : Type} [DecidableEq κ] (k : κ) (v : α) :
    ainsert (α := α) k v [] = [(k, v)] := rfl

@[simp] theorem ainsert_cons {κ α : Type} [DecidableEq κ] (k j : κ) (v w : α)
    (l : List (κ × α)) :
    ainsert k v ((j, w) :: l) =
      if j = k then (k, v) :: l else (j, w) :: ainsert k v l := rfl

@[simp] theorem aerase_nil {κ α : Type} [DecidableEq κ] (k : κ) :
    aerase (α := α) k [] = [] := rfl

@[simp] theorem aerase_cons {κ α : Type} [DecidableEq κ] (k j : κ) (w : α)
    (l : List (κ × α)) :
    aerase k ((j, w) :: l) = if j = k then aerase k l else (j, w) :: aerase k l := rfl

@[simp] theorem alookup_ainsert_self {κ α : Type} [DecidableEq κ] (k : κ) (v : α)
    (l : List (κ × α)) : alookup k (ainsert k v l) = some v := by
  induction l with
  | nil => simp [alookup, ainsert]
  | cons hd tl ih =>
    obtain ⟨j, w⟩ := hd
    by_cases h : j = k <;> simp [alookup, ainsert, h, ih]

/-! ## Claim theorems -/

/-- C8: setting a visitor's conversation state to a value that is not one
of the five known states is rejected with a logged `Invalid state` error
and the whole store is left unchanged. -/
theorem C8_invalid_state_rejected (sys : Sys) (sessionId state : String)
    (uid : Option String) (now : Nat) (h : state ∉ validStates) :
    setSessionState sys sessionId state uid now =
      (sys, some ("Invalid state: " ++ state)) := by
  simp [setSessionState, h]

/-- Witness for C8 at the concrete invalid value "bogus". -/
theorem C8_invalid_state_rejected_witness :
    "bogus" ∉ validStates ∧
      setSessionState (oneUserSys "u1" justHandedOffSession) "s1" "bogus"
          (some "u1") 5 =
        (oneUserSys "u1" justHandedOffSession, some ("Invalid state: bogus")) :=
  ⟨by decide,
   C8_invalid_state_rejected (oneUserSys "u1" justHandedOffSession) "s1" "bogus"
     (some "u1") 5 (by decide)⟩

/-- C3: the one-hour cooldown check returns false 59 minutes after a live
handoff and true 61 minutes after it; a visitor with no recorded
`lastHandoffTime` is eligible; and when the cooldown has elapsed for a
`NORMAL_CHAT` visitor, `analyzeResponseForHandoff` transitions the
stored state to `SEEKING_HANDOFF` and only then evaluates the remaining
eligibility rules (the already-offered check, then the analysis oracle). -/
theorem C3_cooldown_policy (T now : Nat) (sess : SessionRec) (u sid : String)
    (shouldOffer : Bool) (reason : String)
    (hstate : sess.state = SessionState.NORMAL_CHAT)
    (hlast : sess.lastHandoffTime = some T)
    (helapsed : T + 3600000 ≤ now) :
    cooldownElapsed (some T) (T + 59 * 60 * 1000) = false
    ∧ cooldownElapsed (some T) (T + 61 * 60 * 1000) = true
    ∧ cooldownElapsed none now = true
    ∧ (alookup u ((analyzeResponseForHandoff (oneUserSys u sess) sid (some u) now
          shouldOffer reason).1).sessionStateStore).map SessionRec.state
        = some SessionState.SEEKING_HANDOFF
    ∧ (analyzeResponseForHandoff (oneUserSys u sess) sid (some u) now
          shouldOffer reason).2
        = (if sess.handoffOffered then .continueAI "Human handoff already offered"
           else if shouldOffer then .humanHandoff reason
           else .continueAI "No handoff triggers detected") := by
  have h59 : cooldownElapsed (some T) (T + 59 * 60 * 1000) = false := by
    simp only [cooldownElapsed, oneHourMs, decide_eq_false_iff_not, not_le]
    push_cast
    omega
  have h61 : cooldownElapsed (some T) (T + 61 * 60 * 1000) = true := by
    simp only [cooldownElapsed, oneHourMs, decide_eq_true_eq]
    push_cast
    omega
  have hnow : cooldownElapsed (some T) now = true := by
    simp only [cooldownElapsed, oneHourMs, decide_eq_true_eq]
    push_cast
    omega
  refine ⟨h59, h61, rfl, ?_, ?_⟩ <;>
  · by_cases hoff : sess.handoffOffered <;> by_cases hso : shouldOffer <;>
      simp [analyzeResponseForHandoff, getSessionState, getSession, getSessionFromRedis,
        getActiveSession, canRequestHandoffAgain, setSessionState, saveSessionToRedis,
        hasHandoffBeenOffered, oneUserSys, validStates, hstate, hlast, hnow, hoff, hso,
        SessionState.NORMAL_CHAT, SessionState.CALLBACK_REQUEST, SessionState.LEAD_CAPTURE,
        SessionState.HUMAN_CONNECTED, SessionState.SEEKING_HANDOFF]

/-- Witness for C3 at `T = 0`, checked exactly one hour later. -/
theorem C3_cooldown_policy_witness :
    justHandedOffSession.state = SessionState.NORMAL_CHAT ∧
      (cooldownElapsed (some 0) (0 + 59 * 60 * 1000) = false
      ∧ cooldownElapsed (some 0) (0 + 61 * 60 * 1000) = true
      ∧ cooldownElapsed none 3600000 = true
      ∧ (alookup "u1" ((analyzeResponseForHandoff
            (oneUserSys "u1" justHandedOffSession) "s1" (some "u1") 3600000
            true "user asked for help").1).sessionStateStore).map SessionRec.state
          = some SessionState.SEEKING_HANDOFF
      ∧ (analyzeResponseForHandoff (oneUserSys "u1" justHandedOffSession) "s1"
            (some "u1") 3600000 true "user asked for help").2
          = (if justHandedOffSession.handoffOffered
             then .continueAI "Human handoff already offered"
             else if true then .humanHandoff "user asked for help"
             else .continueAI "No handoff triggers detected")) :=
  ⟨rfl, C3_cooldown_policy 0 3600000 justHandedOffSession "u1" "s1" true
    "user asked for help" rfl rfl (by decide)⟩

/-- C4 counterexample: one minute after a live handoff (state
`NORMAL_CHAT`, `lastHandoffTime = 0`, cooldown still active) the
callback route performs no transition at all — the stored state stays
`NORMAL_CHAT` instead of becoming `CALLBACK_REQUEST`, because the route
is conditional on the state not being `NORMAL_CHAT`. -/
theorem C4_counterexample :
    justHandedOffSession.state = SessionState.NORMAL_CHAT
    ∧ justHandedOffSession.lastHandoffTime = some 0
    ∧ cooldownElapsed (some 0) 60000 = false
    ∧ (callbackRequestRoute (oneUserSys "u1" justHandedOffSession) "s1"
        (some "u1") 60000).2 = false
    ∧ (alookup "u1" ((callbackRequestRoute (oneUserSys "u1" justHandedOffSession)
          "s1" (some "u1") 60000).1).sessionStateStore).map SessionRec.state
        = some SessionState.NORMAL_CHAT
    ∧ (alookup "u1" ((callbackRequestRoute (oneUserSys "u1" justHandedOffSession)
          "s1" (some "u1") 60000).1).sessionStateStore).map SessionRec.state
        ≠ some SessionState.CALLBACK_REQUEST := by
  decide

/-- C4 amended: the callback route never consults the live-handoff
cooldown (no dependence on `lastHandoffTime`), and transitions the
visitor to `CALLBACK_REQUEST` from every state except `NORMAL_CHAT`;
when the state is `NORMAL_CHAT` — which includes the window right after
a live handoff, since the accept path itself stores `NORMAL_CHAT` — the
message is handled without any state change. -/
theorem C4_callback_route (sess : SessionRec) (u sid : String) (now : Nat) :
    (sess.state ≠ SessionState.NORMAL_CHAT →
      (callbackRequestRoute (oneUserSys u sess) sid (some u) now).2 = true
      ∧ (alookup u ((callbackRequestRoute (oneUserSys u sess) sid (some u)
            now).1).sessionStateStore).map SessionRec.state
          = some SessionState.CALLBACK_REQUEST)
    ∧ (sess.state = SessionState.NORMAL_CHAT →
      (callbackRequestRoute (oneUserSys u sess) sid (some u) now).2 = false
      ∧ (alookup u ((callbackRequestRoute (oneUserSys u sess) sid (some u)
            now).1).sessionStateStore).map SessionRec.state
          = some SessionState.NORMAL_CHAT) := by
  constructor
  · intro h
    simp only [SessionState.NORMAL_CHAT] at h
    constructor <;>
      simp [callbackRequestRoute, getSessionState, getSession, getSessionFromRedis,
        getActiveSession, markCallbackRequested, setSessionState, saveSessionToRedis,
        oneUserSys, validStates, h, SessionState.NORMAL_CHAT, SessionState.CALLBACK_REQUEST,
        SessionState.SEEKING_HANDOFF, SessionState.LEAD_CAPTURE, SessionState.HUMAN_CONNECTED]
  · intro h
    simp only [SessionState.NORMAL_CHAT] at h
    constructor <;>
      simp [callbackRequestRoute, getSessionState, getSession, getSessionFromRedis,
        getActiveSession, oneUserSys, h, SessionState.NORMAL_CHAT]

/-- Witness for C4 amended: a visitor in `SEEKING_HANDOFF` one minute
after a live handoff (cooldown active) is still transitioned to
`CALLBACK_REQUEST` — the exemption — while the `NORMAL_CHAT` visitor of
the counterexample is left unchanged. -/
theorem C4_callback_route_witness :
    (cooldownElapsed seekingWithCooldown.lastHandoffTime 60000 = false
      ∧ (callbackRequestRoute (oneUserSys "u1" seekingWithCooldown) "s1"
          (some "u1") 60000).2 = true
      ∧ (alookup "u1" ((callbackRequestRoute (oneUserSys "u1" seekingWithCooldown)
            "s1" (some "u1") 60000).1).sessionStateStore).map SessionRec.state
          = some SessionState.CALLBACK_REQUEST)
    ∧ ((callbackRequestRoute (oneUserSys "u2" justHandedOffSession) "s2"
          (some "u2") 60000).2 = false
      ∧ (alookup "u2" ((callbackRequestRoute (oneUserSys "u2" justHandedOffSession)
            "s2" (some "u2") 60000).1).sessionStateStore).map SessionRec.state
          = some SessionState.NORMAL_CHAT) :=
  ⟨⟨by decide,
    (C4_callback_route seekingWithCooldown "u1" "s1" 60000).1 (by decide)⟩,
   (C4_callback_route justHandedOffSession "u2" "s2" 60000).2 rfl⟩

/-- C5 counterexample: the handoff-timeout callback firing for a visitor
whose request is no longer WAITING (the pending request is gone and an
agent connection exists) is not a no-op: it rewrites the stored
conversation state from `NORMAL_CHAT` to `SEEKING_HANDOFF`, because the
callback body never re-checks whether the request is still waiting. -/
theorem C5_counterexample :
    getHandoffState claimedNoRequestSys "u1" = none
    ∧ getActiveSession claimedNoRequestSys "u1" = some aliceConn
    ∧ (alookup "u1" claimedNoRequestSys.sessionStateStore).map SessionRec.state
        = some SessionState.NORMAL_CHAT
    ∧ (alookup "u1" (handoffTimeoutFire claimedNoRequestSys "u1" "s1"
          600000).sessionStateStore).map SessionRec.state
        = some SessionState.SEEKING_HANDOFF
    ∧ handoffTimeoutFire claimedNoRequestSys "u1" "s1" 600000 ≠ claimedNoRequestSys := by
  decide

/-- C5 amended: a WAITING request with no claim is, on the single firing
of its handoff-timeout timer, transitioned to `SEEKING_HANDOFF` with the
pending request, its timer-start record, the waiting-time updater and
the timeout registration all removed (the timer is single-shot, so this
happens exactly once); but the callback performs no still-WAITING
re-check, so a firing after a claim has landed still resets the stored
state (see the counterexample) — in the normal flow the claim path
prevents this only by cancelling the timer. -/
theorem C5_timeout_reclamation (u sid : String) (sess : SessionRec)
    (hrec : HandoffRec) (now : Nat) (hsid : sid ≠ "") :
    (alookup u (handoffTimeoutFire (waitingSys u sid sess hrec) u sid
        now).sessionStateStore).map SessionRec.state
      = some SessionState.SEEKING_HANDOFF
    ∧ getHandoffState (handoffTimeoutFire (waitingSys u sid sess hrec) u sid now) u = none
    ∧ alookup u (handoffTimeoutFire (waitingSys u sid sess hrec) u sid
        now).handoffTimeouts = none
    ∧ alookup u (handoffTimeoutFire (waitingSys u sid sess hrec) u sid
        now).timerStarts = none
    ∧ alookup (some u) (handoffTimeoutFire (waitingSys u sid sess hrec) u sid
        now).updateIntervals = none := by
  refine ⟨?_, ?_, ?_, ?_, ?_⟩ <;>
    simp [handoffTimeoutFire, getHandoffState, getUserState, getActiveSession,
      setSessionState, getSessionState, getSession, getSessionFromRedis,
      saveSessionToRedis, deleteHandoffState, deleteTimer, stopWaitingTimeUpdater,
      clearHandoffTimeout, waitingSys, truthy, hsid, validStates,
      SessionState.SEEKING_HANDOFF]

/-- Witness for C5 amended at a concrete waiting visitor. -/
theorem C5_timeout_reclamation_witness :
    getHandoffState (waitingSys "u1" "s1" justHandedOffSession
        { sessionId := "s1", messageTs := "m1", requestTime := 0 }) "u1"
      = some { sessionId := "s1", messageTs := "m1", requestTime := 0 }
    ∧ ((alookup "u1" (handoffTimeoutFire (waitingSys "u1" "s1" justHandedOffSession
          { sessionId := "s1", messageTs := "m1", requestTime := 0 }) "u1" "s1"
          600000).sessionStateStore).map SessionRec.state
        = some SessionState.SEEKING_HANDOFF
      ∧ getHandoffState (handoffTimeoutFire (waitingSys "u1" "s1" justHandedOffSession
          { sessionId := "s1", messageTs := "m1", requestTime := 0 }) "u1" "s1"
          600000) "u1" = none
      ∧ alookup "u1" (handoffTimeoutFire (waitingSys "u1" "s1" justHandedOffSession
          { sessionId := "s1", messageTs := "m1", requestTime := 0 }) "u1" "s1"
          600000).handoffTimeouts = none
      ∧ alookup "u1" (handoffTimeoutFire (waitingSys "u1" "s1" justHandedOffSession
          { sessionId := "s1", messageTs := "m1", requestTime := 0 }) "u1" "s1"
          600000).timerStarts = none
      ∧ alookup (some "u1") (handoffTimeoutFire (waitingSys "u1" "s1" justHandedOffSession
          { sessionId := "s1", messageTs := "m1", requestTime := 0 }) "u1" "s1"
          600000).updateIntervals = none) :=
  ⟨by decide,
   C5_timeout_reclamation "u1" "s1" justHandedOffSession
     { sessionId := "s1", messageTs := "m1", requestTime := 0 } 600000 (by decide)⟩

/-- C1 counterexample: two accept calls for the same visitor whose
check-and-create steps interleave (both reads happen before either
write) both finish with success — refuting that exactly one of N
simultaneous claims succeeds with the loser observing AlreadyClaimed —
and the second, unconditional write silently replaces the first agent's
connection, because the operation is a read followed by an overwrite
rather than a single atomic store operation. -/
theorem C1_counterexample :
    (runRace "u1" 7 [false, true, false, true] twoAgentRace).task0.phase
      = .finished "accepted" none
    ∧ (runRace "u1" 7 [false, true, false, true] twoAgentRace).task1.phase
      = .finished "accepted" none
    ∧ (runRace "u1" 7 [false, true, false, true] twoAgentRace).store
      = some { agentId := "A2", agentName := "Bob", threadTs := "m2"
               originalMessageTs := "m2", connectedAt := 7
               persistentUserId := "u1", currentSessionId := "s1" } := by
  decide

/-- C1 amended: the visitor's connection slot is a single keyed record,
so at most one `ActiveAgentConnection` exists per visitor at any
instant (a racing success overwrites rather than duplicates), and when
two claims do not interleave — the second starts after the first
finished — exactly one succeeds and the second observes already-taken,
naming the first agent; but since the check-and-create is a read
followed by an unconditional write rather than an atomic store
operation, interleaved claims can both report success (see the
counterexample). -/
theorem C1_sequential_claims (u : String) (now : Nat)
    (a0id a0name a1id a1name s0 s1 m0 m1 : String) :
    (runRace u now [false, false, true, true]
        { store := none
          task0 := { agentId := a0id, agentName := a0name, sessionId := s0, messageTs := m0 }
          task1 := { agentId := a1id, agentName := a1name, sessionId := s1, messageTs := m1 } }).task0.phase
      = .finished "accepted" none
    ∧ (runRace u now [false, false, true, true]
        { store := none
          task0 := { agentId := a0id, agentName := a0name, sessionId := s0, messageTs := m0 }
          task1 := { agentId := a1id, agentName := a1name, sessionId := s1, messageTs := m1 } }).task1.phase
      = .finished "already_taken" (some a0name)
    ∧ (runRace u now [false, false, true, true]
        { store := none
          task0 := { agentId := a0id, agentName := a0name, sessionId := s0, messageTs := m0 }
          task1 := { agentId := a1id, agentName := a1name, sessionId := s1, messageTs := m1 } }).store
      = some { agentId := a0id, agentName := a0name, threadTs := m0
               originalMessageTs := m0, connectedAt := now
               persistentUserId := u, currentSessionId := s0 } :=
  ⟨rfl, rfl, rfl⟩

/-- C2 counterexample: a visitor that resolves (a user state with a
current session exists) but has no WAITING pending handoff request is
accepted outright — the operation does not fail with NotFound as the
claim requires, because `handleAcceptButton` never checks for a pending
request. -/
theorem C2_counterexample :
    getHandoffState resolvableNoRequestSys "u1" = none
    ∧ (handleAcceptButton resolvableNoRequestSys "u1" "A1" "Alice" "ts0" 1000).2.status
        = "accepted"
    ∧ (handleAcceptButton resolvableNoRequestSys "u1" "A1" "Alice" "ts0" 1000).2.status
        ≠ "error" := by
  decide

/-- C2 amended: the claim fails as already-taken, naming the holding
agent and changing no state, whenever an `ActiveAgentConnection` already
exists for the resolved visitor; and it fails as not-found with no state
change when the supplied identifier cannot be resolved to a visitor (no
user record with a current session and no session mapping) — but a
resolvable visitor with no WAITING pending request is not rejected (see
the counterexample). -/
theorem C2_claim_failure_modes (sys : Sys) (identifier userId userName ts : String)
    (now : Nat) :
    (∀ u sid a, resolveIdentifier sys identifier = (some u, sid) → u ≠ "" → sid ≠ "" →
      getActiveSession sys u = some a →
      handleAcceptButton sys identifier userId userName ts now =
        (sys, { status := "already_taken"
                message := some ("This chat is already being handled by " ++ a.agentName) }))
    ∧ (∀ sid, resolveIdentifier sys identifier = (none, sid) →
      handleAcceptButton sys identifier userId userName ts now =
        (sys, { status := "error", message := some "Session not found" })) := by
  constructor
  · intro u sid a hres hu hsid hact
    simp [handleAcceptButton, hres, truthy, hu, hsid, hact]
  · intro sid hres
    simp [handleAcceptButton, hres, truthy]

/-- Witness for C2 amended: agent Bob's claim on the visitor already
held by Alice is rejected as already-taken naming Alice with the store
unchanged, and an unresolvable identifier is rejected as not-found. -/
theorem C2_claim_failure_modes_witness :
    (resolveIdentifier claimedNoRequestSys "u1" = (some "u1", "s1")
      ∧ getActiveSession claimedNoRequestSys "u1" = some aliceConn
      ∧ handleAcceptButton claimedNoRequestSys "u1" "A2" "Bob" "ts9" 5 =
          (claimedNoRequestSys,
           { status := "already_taken"
             message := some ("This chat is already being handled by " ++ aliceConn.agentName) }))
    ∧ (resolveIdentifier emptyRedisSys "ghost" = (none, "ghost")
      ∧ handleAcceptButton emptyRedisSys "ghost" "A2" "Bob" "ts9" 5 =
          (emptyRedisSys, { status := "error", message := some "Session not found" })) :=
  ⟨⟨by decide, by decide,
    (C2_claim_failure_modes claimedNoRequestSys "u1" "A2" "Bob" "ts9" 5).1
      "u1" "s1" aliceConn (by decide) (by decide) (by decide) (by decide)⟩,
   ⟨by decide,
    (C2_claim_failure_modes emptyRedisSys "ghost" "A2" "Bob" "ts9" 5).2
      "ghost" (by decide)⟩⟩

/-- C6: the cooldown timestamp is recorded at the moment the claim
succeeds — the accept path stores the accept time `t1` as
`lastHandoffTime` — and the agent-end path removes the connection and
leaves the session store untouched (so the state observed afterwards is
the `NORMAL_CHAT` written at accept time and the timestamp is still the
accept time, not the end time). -/
theorem C6_timestamp_at_accept (u sid aid aname ts : String) (sess : SessionRec)
    (hrec : HandoffRec) (t1 t2 t3 : Nat) (hu : u ≠ "") (hsid : sid ≠ "") :
    (handleAcceptButton (waitingSys u sid sess hrec) u aid aname ts t1).2.status
      = "accepted"
    ∧ (alookup u (handleAcceptButton (waitingSys u sid sess hrec) u aid aname ts
        t1).1.sessionStateStore).map SessionRec.lastHandoffTime = some (some t1)
    ∧ (acceptThenEnd u sid aid aname ts sess hrec t1 t2).2.status = "ended"
    ∧ getActiveSession (acceptThenEnd u sid aid aname ts sess hrec t1 t2).1 u = none
    ∧ (acceptThenEnd u sid aid aname ts sess hrec t1 t2).1.sessionStateStore
      = (handleAcceptButton (waitingSys u sid sess hrec) u aid aname ts
        t1).1.sessionStateStore
    ∧ (alookup u (acceptThenEnd u sid aid aname ts sess hrec t1
        t2).1.sessionStateStore).map SessionRec.lastHandoffTime = some (some t1)
    ∧ (getSessionState (acceptThenEnd u sid aid aname ts sess hrec t1 t2).1 sid
        (some u) t3).2 = SessionState.NORMAL_CHAT := by
  refine ⟨?_, ?_, ?_, ?_, ?_, ?_, ?_⟩ <;>
    simp [acceptThenEnd, handleAcceptButton, handleEndChatButton, resolveIdentifier,
      getUserState, getSessionMapping, getActiveSession, setActiveSession,
      deleteActiveSession, setUserState, stopWaitingTimeUpdater, deleteTimer,
      deleteHandoffState, clearHandoffTimeout, clearUserInactivityTimeout,
      setUserInactivityTimeout, startSessionDurationUpdater, stopSessionDurationUpdater,
      getHandoffState, markHumanHandoffAccepted, setSessionState, getSessionState,
      getSession, getSessionFromRedis, saveSessionToRedis, waitingSys, truthy,
      hu, hsid, validStates, SessionState.NORMAL_CHAT, SessionState.HUMAN_CONNECTED,
      SessionState.SEEKING_HANDOFF]

/-- Witness for C6 at a concrete visitor, agent and times. -/
theorem C6_timestamp_at_accept_witness :
    (handleAcceptButton (waitingSys "u1" "s1" justHandedOffSession
        { sessionId := "s1", messageTs := "m1", requestTime := 50 })
        "u1" "A1" "Alice" "m1" 1000).2.status = "accepted"
    ∧ (alookup "u1" (handleAcceptButton (waitingSys "u1" "s1" justHandedOffSession
        { sessionId := "s1", messageTs := "m1", requestTime := 50 })
        "u1" "A1" "Alice" "m1" 1000).1.sessionStateStore).map
        SessionRec.lastHandoffTime = some (some 1000)
    ∧ (acceptThenEnd "u1" "s1" "A1" "Alice" "m1" justHandedOffSession
        { sessionId := "s1", messageTs := "m1", requestTime := 50 } 1000 9000).2.status
      = "ended"
    ∧ getActiveSession (acceptThenEnd "u1" "s1" "A1" "Alice" "m1" justHandedOffSession
        { sessionId := "s1", messageTs := "m1", requestTime := 50 } 1000 9000).1 "u1"
      = none
    ∧ (acceptThenEnd "u1" "s1" "A1" "Alice" "m1" justHandedOffSession
        { sessionId := "s1", messageTs := "m1", requestTime := 50 } 1000
        9000).1.sessionStateStore
      = (handleAcceptButton (waitingSys "u1" "s1" justHandedOffSession
        { sessionId := "s1", messageTs := "m1", requestTime := 50 })
        "u1" "A1" "Alice" "m1" 1000).1.sessionStateStore
    ∧ (alookup "u1" (acceptThenEnd "u1" "s1" "A1" "Alice" "m1" justHandedOffSession
        { sessionId := "s1", messageTs := "m1", requestTime := 50 } 1000
        9000).1.sessionStateStore).map SessionRec.lastHandoffTime = some (some 1000)
    ∧ (getSessionState (acceptThenEnd "u1" "s1" "A1" "Alice" "m1" justHandedOffSession
        { sessionId := "s1", messageTs := "m1", requestTime := 50 } 1000 9000).1 "s1"
        (some "u1") 9500).2 = SessionState.NORMAL_CHAT :=
  C6_timestamp_at_accept "u1" "s1" "A1" "Alice" "m1" justHandedOffSession
    { sessionId := "s1", messageTs := "m1", requestTime := 50 } 1000 9000 9500
    (by decide) (by decide)

/-- C7: a second `requestHumanAgent` call for a visitor whose request is
still WAITING publishes no second Slack request, keeps the single
pending request (updating only its session pointer), leaves the
handoff-timeout timer and waiting-time updater untouched, and returns
the still-pending message instead of the requested one. -/
theorem C7_idempotent_rerequest (u s1 s2 : String) (t1 t2 : Nat)
    (hist1 hist2 : List ChatMsg) (f : List ChatMsg → String) :
    (requestHumanAgent emptyRedisSys s1 hist1 (some u) t1 f).2
      = { status := "human_requested"
          message := "Human agent request sent to our team. Someone will be with you shortly!" }
    ∧ (requestHumanAgent (requestHumanAgent emptyRedisSys s1 hist1 (some u) t1 f).1
        s2 hist2 (some u) t2 f).2
      = { status := "human_requested"
          message := "Your previous request for human assistance is still active. Someone will be with you shortly!" }
    ∧ (requestHumanAgent (requestHumanAgent emptyRedisSys s1 hist1 (some u) t1 f).1
        s2 hist2 (some u) t2 f).1.slackRequestPosts
      = (requestHumanAgent emptyRedisSys s1 hist1 (some u) t1 f).1.slackRequestPosts
    ∧ (requestHumanAgent emptyRedisSys s1 hist1 (some u) t1 f).1.slackRequestPosts.length
      = 1
    ∧ (requestHumanAgent (requestHumanAgent emptyRedisSys s1 hist1 (some u) t1 f).1
        s2 hist2 (some u) t2 f).1.handoffTimeouts
      = (requestHumanAgent emptyRedisSys s1 hist1 (some u) t1 f).1.handoffTimeouts
    ∧ (requestHumanAgent (requestHumanAgent emptyRedisSys s1 hist1 (some u) t1 f).1
        s2 hist2 (some u) t2 f).1.updateIntervals
      = (requestHumanAgent emptyRedisSys s1 hist1 (some u) t1 f).1.updateIntervals
    ∧ alookup u (requestHumanAgent (requestHumanAgent emptyRedisSys s1 hist1 (some u)
        t1 f).1 s2 hist2 (some u) t2 f).1.handoffStates
      = some { sessionId := s2, messageTs := "slack-ts-0", requestTime := t1
               conversationHistory := hist1
               summary := if hist1 ≠ [] then some (f hist1) else none } := by
  have hts : "slack-ts-" ++ toString (0 : Nat) = "slack-ts-0" := by decide
  by_cases hh : hist1 = [] <;>
    refine ⟨?_, ?_, ?_, ?_, ?_, ?_, ?_⟩ <;>
      simp [requestHumanAgent, mapUserToSession, updateCurrentSession, setSessionMapping,
        updateActiveSessionId, getActiveSession, getHandoffState, setHandoffState,
        setTimerStart, setHandoffTimeout, clearHandoffTimeout, startWaitingTimeUpdater,
        emptyRedisSys, hh, hts]

/-- C10: whenever an active agent-connection record exists for a
visitor, `getSessionState` returns `HUMAN_CONNECTED` regardless of the
stored state value and overwrites the stored record with
`HUMAN_CONNECTED`; the successful-claim path itself stores `NORMAL_CHAT`
in the session record while the connection it just created exists, so
the `HUMAN_CONNECTED` mode is derived from the connection record's
presence rather than from a state write at claim time. -/
theorem C10_derived_connected_state (sess : SessionRec) (conn : ActiveRec)
    (u sid aid aname ts : String) (hrec : HandoffRec) (t1 t2 : Nat)
    (hu : u ≠ "") (hsid : sid ≠ "") :
    (getSessionState (connectedSys u sess conn) sid (some u) t2).2
      = SessionState.HUMAN_CONNECTED
    ∧ alookup u ((getSessionState (connectedSys u sess conn) sid (some u)
        t2).1).sessionStateStore
      = some { sess with state := SessionState.HUMAN_CONNECTED, persistentUserId := some u }
    ∧ (handleAcceptButton (waitingSys u sid sess hrec) u aid aname ts t1).2.status
      = "accepted"
    ∧ (alookup u (handleAcceptButton (waitingSys u sid sess hrec) u aid aname ts
        t1).1.sessionStateStore).map SessionRec.state = some SessionState.NORMAL_CHAT
    ∧ (getActiveSession (handleAcceptButton (waitingSys u sid sess hrec) u aid aname
        ts t1).1 u).isSome = true
    ∧ (getSessionState (handleAcceptButton (waitingSys u sid sess hrec) u aid aname
        ts t1).1 sid (some u) t2).2 = SessionState.HUMAN_CONNECTED := by
  refine ⟨?_, ?_, ?_, ?_, ?_, ?_⟩ <;>
    simp [handleAcceptButton, resolveIdentifier, getUserState, getSessionMapping,
      getActiveSession, setActiveSession, setUserState, stopWaitingTimeUpdater,
      deleteTimer, deleteHandoffState, clearHandoffTimeout, clearUserInactivityTimeout,
      setUserInactivityTimeout, startSessionDurationUpdater, getHandoffState,
      markHumanHandoffAccepted, setSessionState, getSessionState, getSession,
      getSessionFromRedis, saveSessionToRedis, waitingSys, connectedSys, truthy,
      hu, hsid, validStates, SessionState.NORMAL_CHAT, SessionState.HUMAN_CONNECTED,
      SessionState.SEEKING_HANDOFF]

/-- Witness for C10 at a concrete visitor and connection. -/
theorem C10_derived_connected_state_witness :
    (getSessionState (connectedSys "u1" justHandedOffSession aliceConn) "s1"
        (some "u1") 2000).2 = SessionState.HUMAN_CONNECTED
    ∧ alookup "u1" ((getSessionState (connectedSys "u1" justHandedOffSession aliceConn)
        "s1" (some "u1") 2000).1).sessionStateStore
      = some { justHandedOffSession with
                state := SessionState.HUMAN_CONNECTED, persistentUserId := some "u1" }
    ∧ (handleAcceptButton (waitingSys "u1" "s1" justHandedOffSession
        { sessionId := "s1", messageTs := "m1", requestTime := 50 })
        "u1" "A1" "Alice" "m1" 1000).2.status = "accepted"
    ∧ (alookup "u1" (handleAcceptButton (waitingSys "u1" "s1" justHandedOffSession
        { sessionId := "s1", messageTs := "m1", requestTime := 50 })
        "u1" "A1" "Alice" "m1" 1000).1.sessionStateStore).map SessionRec.state
      = some SessionState.NORMAL_CHAT
    ∧ (getActiveSession (handleAcceptButton (waitingSys "u1" "s1" justHandedOffSession
        { sessionId := "s1", messageTs := "m1", requestTime := 50 })
        "u1" "A1" "Alice" "m1" 1000).1 "u1").isSome = true
    ∧ (getSessionState (handleAcceptButton (waitingSys "u1" "s1" justHandedOffSession
        { sessionId := "s1", messageTs := "m1", requestTime := 50 })
        "u1" "A1" "Alice" "m1" 1000).1 "s1" (some "u1") 2000).2
      = SessionState.HUMAN_CONNECTED :=
  C10_derived_connected_state justHandedOffSession aliceConn "u1" "s1" "A1" "Alice"
    "m1" { sessionId := "s1", messageTs := "m1", requestTime := 50 } 1000 2000
    (by decide) (by decide)

/-- C9: when the responder output carries the lead marker, the first
line after the marker is split on commas (each field trimmed of
surrounding whitespace): with fewer than four fields the call returns
`none` and changes nothing; with at least four, the first four fields
become first name, last name, email and phone in that order, the lead is
assembled, and the stored state transitions to `NORMAL_CHAT`. -/
theorem C9_lead_marker_parsing (sess : SessionRec) (u sid : String) (now : Nat)
    (botResponse dataString : String)
    (hd : (jsSplit botResponse "LEAD_CAPTURED:").get? 1 = some dataString)
    (hne : dataString ≠ "") :
    ((leadParts dataString).length < 4 →
      handleLeadCapture (oneUserSys u sess) sid botResponse (some u) now
        = (oneUserSys u sess, none))
    ∧ (4 ≤ (leadParts dataString).length →
      (handleLeadCapture (oneUserSys u sess) sid botResponse (some u) now).2
        = some { name := jsTrim ((leadParts dataString).getD 0 "" ++ " "
                   ++ (leadParts dataString).getD 1 "")
                 firstName := (leadParts dataString).getD 0 ""
                 lastName := (leadParts dataString).getD 1 ""
                 email := (leadParts dataString).getD 2 ""
                 phone := (leadParts dataString).getD 3 ""
                 source := "chatbot", clientId := "achora", sessionId := sid }
      ∧ (alookup u ((handleLeadCapture (oneUserSys u sess) sid botResponse (some u)
            now).1).sessionStateStore).map SessionRec.state
          = some SessionState.NORMAL_CHAT) := by
  obtain ⟨hlt, -⟩ := List.get?_eq_some.mp hd
  have hcm : containsLeadMarker botResponse = true := by
    simp only [containsLeadMarker, decide_eq_true_eq]
    omega
  simp only [List.get?_eq_getElem?] at hd
  constructor
  · intro hfew
    simp [handleLeadCapture, hcm, hd, hne, hfew]
  · intro henough
    have hnotfew : ¬((leadParts dataString).length < 4) := by omega
    constructor <;>
      simp [handleLeadCapture, hcm, hd, hne, hnotfew, markLeadCaptured,
        setSessionState, getSessionState, getSession, getSessionFromRedis,
        getActiveSession, saveSessionToRedis, oneUserSys, validStates,
        SessionState.NORMAL_CHAT]

/-- Witness for C9: a well-formed four-field payload is parsed into the
lead, in order, and the state moves to `NORMAL_CHAT`; the theorem is
applied at the concrete response text. -/
theorem C9_lead_marker_parsing_witness :
    (handleLeadCapture (oneUserSys "u9" justHandedOffSession) "s9"
        "Great! LEAD_CAPTURED: John, Smith, john@example.com, 0400111222"
        (some "u9") 7).2
      = some { name := "John Smith", firstName := "John", lastName := "Smith"
               email := "john@example.com", phone := "0400111222"
               source := "chatbot", clientId := "achora", sessionId := "s9" }
    ∧ (alookup "u9" ((handleLeadCapture (oneUserSys "u9" justHandedOffSession) "s9"
          "Great! LEAD_CAPTURED: John, Smith, john@example.com, 0400111222"
          (some "u9") 7).1).sessionStateStore).map SessionRec.state
        = some SessionState.NORMAL_CHAT := by
  have h := (C9_lead_marker_parsing justHandedOffSession "u9" "s9" 7
    "Great! LEAD_CAPTURED: John, Smith, john@example.com, 0400111222"
    " John, Smith, john@example.com, 0400111222" (by decide) (by decide)).2
    (by decide)
  obtain ⟨h1, h2⟩ := h
  refine ⟨?_, h2⟩
  rw [h1]
  decide

end Achora
